import Mathlib

/-!
Verification of the verma-net-radiation numeric pipeline.

Shallow embedding of the repository's three source files:
- `testing/testing_emissivity_update.py` (scalar vs array emissivity paths),
- `verma_net_radiation/model.py` (instantaneous net radiation),
- `verma_net_radiation/daily_Rn_integration_verma.py` (daily integration).

Numpy floating-point scalars are modelled exactly over the reals, with
explicit NaN and signed-infinity sentinels and IEEE-style propagation
(comparisons against NaN are false; arithmetic with NaN yields NaN).
Rounding is not modelled; all arithmetic on finite values is exact.
-/

open Real

/-- A numpy floating-point scalar: a finite real number, NaN, +inf or -inf.
Signed zero is not distinguished. -/
inductive NpVal
| fin (x : ℝ)
| nan
| pinf
| ninf

/-- Negation, as numpy unary minus: `-nan = nan`, `-inf` flips sign. -/
def NpVal.neg : NpVal → NpVal
| .fin x => .fin (-x)
| .nan => .nan
| .pinf => .ninf
| .ninf => .pinf

/-- IEEE-style addition: NaN propagates, `inf + (-inf) = nan`. -/
def NpVal.add : NpVal → NpVal → NpVal
| .fin x, .fin y => .fin (x + y)
| .nan, _ => .nan
| _, .nan => .nan
| .pinf, .ninf => .nan
| .ninf, .pinf => .nan
| .pinf, _ => .pinf
| _, .pinf => .pinf
| .ninf, _ => .ninf
| _, .ninf => .ninf

/-- IEEE-style subtraction: NaN propagates, `inf - inf = nan`. -/
def NpVal.sub : NpVal → NpVal → NpVal
| .fin x, .fin y => .fin (x - y)
| .nan, _ => .nan
| _, .nan => .nan
| .pinf, .pinf => .nan
| .ninf, .ninf => .nan
| .pinf, _ => .pinf
| _, .pinf => .ninf
| .ninf, _ => .ninf
| _, .ninf => .pinf

/-- IEEE-style multiplication: NaN propagates, `0 * inf = nan`. -/
noncomputable def NpVal.mul : NpVal → NpVal → NpVal
| .fin x, .fin y => .fin (x * y)
| .nan, _ => .nan
| _, .nan => .nan
| .pinf, .pinf => .pinf
| .pinf, .ninf => .ninf
| .ninf, .pinf => .ninf
| .ninf, .ninf => .pinf
| .pinf, .fin y => if 0 < y then .pinf else if y < 0 then .ninf else .nan
| .fin x, .pinf => if 0 < x then .pinf else if x < 0 then .ninf else .nan
| .ninf, .fin y => if 0 < y then .ninf else if y < 0 then .pinf else .nan
| .fin x, .ninf => if 0 < x then .ninf else if x < 0 then .pinf else .nan

/-- IEEE-style division (signed zero ignored): `x / 0` is `±inf` for `x ≠ 0`
and `nan` for `x = 0`; `fin / inf = 0`; `inf / inf = nan`; NaN propagates. -/
noncomputable def NpVal.div : NpVal → NpVal → NpVal
| .fin x, .fin y =>
    if y = 0 then (if 0 < x then .pinf else if x < 0 then .ninf else .nan)
    else .fin (x / y)
| .nan, _ => .nan
| _, .nan => .nan
| .pinf, .pinf => .nan
| .pinf, .ninf => .nan
| .ninf, .pinf => .nan
| .ninf, .ninf => .nan
| .fin _, .pinf => .fin 0
| .fin _, .ninf => .fin 0
| .pinf, .fin y => if y < 0 then .ninf else .pinf
| .ninf, .fin y => if y < 0 then .pinf else .ninf

/-- `np.sqrt`: NaN on negative finite arguments and on `-inf` (numpy emits an
invalid-value warning and returns NaN, never raising and never going complex). -/
noncomputable def NpVal.sqrt : NpVal → NpVal
| .fin x => if 0 ≤ x then .fin (Real.sqrt x) else .nan
| .nan => .nan
| .pinf => .pinf
| .ninf => .nan

/-- `np.sin`: NaN on NaN and on infinite arguments. -/
noncomputable def NpVal.sin : NpVal → NpVal
| .fin x => .fin (Real.sin x)
| _ => .nan

/-- `10 ** x` with float base 10: `10 ** inf = inf`, `10 ** -inf = 0`,
NaN propagates. -/
noncomputable def NpVal.pow10 : NpVal → NpVal
| .fin x => .fin ((10 : ℝ) ^ x)
| .nan => .nan
| .pinf => .pinf
| .ninf => .fin 0

/-- Fourth power, for the Stefan-Boltzmann terms (`T ** 4`). -/
noncomputable def NpVal.pow4 : NpVal → NpVal
| .fin x => .fin (x ^ (4 : ℕ))
| .nan => .nan
| .pinf => .pinf
| .ninf => .pinf

/-- `<=` as a numpy boolean: any comparison involving NaN is false. -/
noncomputable def NpVal.le : NpVal → NpVal → Bool
| .fin x, .fin y => decide (x ≤ y)
| .fin _, .pinf => true
| .fin _, .ninf => false
| .fin _, .nan => false
| .pinf, .pinf => true
| .pinf, _ => false
| .ninf, .nan => false
| .ninf, _ => true
| .nan, _ => false

/-- `<` as a numpy boolean: any comparison involving NaN is false. -/
noncomputable def NpVal.lt : NpVal → NpVal → Bool
| .fin x, .fin y => decide (x < y)
| .fin _, .pinf => true
| .ninf, .fin _ => true
| .ninf, .pinf => true
| _, _ => false

/-- `>=` as a numpy boolean. -/
noncomputable def NpVal.ge (a b : NpVal) : Bool := NpVal.le b a

/-- `np.isnan`. -/
def NpVal.isnan : NpVal → Bool
| .nan => true
| _ => false

/-- `np.isinf`. -/
def NpVal.isinf : NpVal → Bool
| .pinf => true
| .ninf => true
| _ => false

/-- `np.maximum`: NaN propagates (as it does inside `np.clip`). -/
noncomputable def NpVal.vmax : NpVal → NpVal → NpVal
| .fin x, .fin y => .fin (max x y)
| .nan, _ => .nan
| _, .nan => .nan
| .pinf, _ => .pinf
| _, .pinf => .pinf
| .ninf, y => y
| x, .ninf => x

/-- `np.minimum`: NaN propagates (as it does inside `np.clip`). -/
noncomputable def NpVal.vmin : NpVal → NpVal → NpVal
| .fin x, .fin y => .fin (min x y)
| .nan, _ => .nan
| _, .nan => .nan
| .ninf, _ => .ninf
| _, .ninf => .ninf
| .pinf, y => y
| x, .pinf => x

/-- `np.clip(v, 0, 1)`: clamp into [0,1]; NaN stays NaN. -/
noncomputable def NpVal.clip01 (v : NpVal) : NpVal :=
  (v.vmax (.fin 0)).vmin (.fin 1)

/-- `np.clip(v, 0, None)`: clamp below at 0; NaN stays NaN. -/
noncomputable def NpVal.clipLower0 (v : NpVal) : NpVal :=
  v.vmax (.fin 0)

/-- `np.where` on a scalar boolean condition. -/
def NpVal.where (c : Bool) (a b : NpVal) : NpVal :=
  if c then a else b

/-! ## Emissivity paths from `testing/testing_emissivity_update.py` -/

/-- Scalar emissivity path `old_eta2` from the testing script: a Python-level
`if eta2_arg >= 0` branch (a NaN argument compares false, giving NaN). -/
noncomputable def old_eta2 (Ea_Pa Ta_K : NpVal) : NpVal :=
  let eta1 := ((NpVal.fin 0.465).mul Ea_Pa).div Ta_K
  let eta2_arg := (NpVal.fin 1.2).add ((NpVal.fin 3).mul eta1)
  if eta2_arg.ge (NpVal.fin 0) then eta2_arg.sqrt.neg else NpVal.nan

/-- Array emissivity path `new_eta2` from the testing script:
`np.where(eta2_arg >= 0, -np.sqrt(eta2_arg), np.nan)`, per element. -/
noncomputable def new_eta2 (Ea_Pa Ta_K : NpVal) : NpVal :=
  let eta1 := ((NpVal.fin 0.465).mul Ea_Pa).div Ta_K
  let eta2_arg := (NpVal.fin 1.2).add ((NpVal.fin 3).mul eta1)
  NpVal.where (eta2_arg.ge (NpVal.fin 0)) eta2_arg.sqrt.neg NpVal.nan

/-- The square-root argument `1.2 + 3*(0.465*Ea_Pa/Ta_K)` common to both paths. -/
noncomputable def eta2_arg_of (Ea_Pa Ta_K : NpVal) : NpVal :=
  (NpVal.fin 1.2).add ((NpVal.fin 3).mul (((NpVal.fin 0.465).mul Ea_Pa).div Ta_K))

/-! ## `verma_net_radiation/model.py` -/

/-- Stefan-Boltzmann constant exactly as written in `model.py`. -/
def STEFAN_BOLTZMAN_CONSTANT : ℝ := 5.67036713e-8

/-- Modelled from the spec: `brutsaert_atmospheric_emissivity` is imported by
`model.py` but its module is not among the given sources; spec section 4.1 gives
`eta1 = 0.465*Ea/Ta`, `arg = 1.2 + 3*eta1`, result `-sqrt(arg)` where
`arg >= 0`, NaN where `arg < 0`, elementwise. -/
noncomputable def brutsaert_atmospheric_emissivity (Ea_Pa Ta_K : NpVal) : NpVal :=
  let eta1 := ((NpVal.fin 0.465).mul Ea_Pa).div Ta_K
  let arg := (NpVal.fin 1.2).add ((NpVal.fin 3).mul eta1)
  NpVal.where (arg.ge (NpVal.fin 0)) arg.sqrt.neg NpVal.nan

/-- Modelled from the spec: `incoming_longwave_radiation` is imported by
`model.py` but its module is not among the given sources; spec section 4.2:
clear-sky incoming longwave is `emissivity * sigma * Ta_K^4`; with a cloud
mask, cloudy pixels are corrected to blackbody emission (`sigma * Ta_K^4`),
clear pixels keep the clear-sky value; no mask means all clear-sky. -/
noncomputable def incoming_longwave_radiation
    (atmospheric_emissivity Ta_K : NpVal) (cloud_mask : Option Bool) : NpVal :=
  let clear := (atmospheric_emissivity.mul (NpVal.fin STEFAN_BOLTZMAN_CONSTANT)).mul Ta_K.pow4
  match cloud_mask with
  | none => clear
  | some cloudy =>
      if cloudy then (NpVal.fin STEFAN_BOLTZMAN_CONSTANT).mul Ta_K.pow4 else clear

/-- Modelled from the spec: `outgoing_longwave_radiation` is imported by
`model.py` but its module is not among the given sources; spec section 4.2:
`emissivity * sigma * surfaceTempK^4`. -/
noncomputable def outgoing_longwave_radiation (emissivity ST_K : NpVal) : NpVal :=
  (emissivity.mul (NpVal.fin STEFAN_BOLTZMAN_CONSTANT)).mul ST_K.pow4

/-- The four named outputs of `verma_net_radiation` (the Python dict keys). -/
structure VermaResult where
  SWout : NpVal
  LWin : NpVal
  LWout : NpVal
  Rn : NpVal

/-- Line 53 of `model.py`: water vapor pressure in Pascals from relative
humidity and air temperature in Kelvin,
`(RH * 0.6113 * (10 ** (7.5 * (Ta_K - 273.15) / (Ta_K - 35.85)))) * 1000`. -/
noncomputable def verma_Ea_Pa (RH Ta_K : NpVal) : NpVal :=
  ((RH.mul (NpVal.fin 0.6113)).mul
    ((((NpVal.fin 7.5).mul (Ta_K.sub (NpVal.fin 273.15))).div
        (Ta_K.sub (NpVal.fin 35.85))).pow10)).mul (NpVal.fin 1000)

/-- `verma_net_radiation` from `model.py`, per element. Temperatures are
converted to Kelvin, vapor pressure follows the Magnus-type formula, albedo
and emissivity are clipped into [0,1], outgoing shortwave, net shortwave and
net radiation are clipped to be nonnegative. -/
noncomputable def verma_net_radiation
    (ST_C emissivity albedo SWin Ta_C RH : NpVal) (cloud_mask : Option Bool) :
    VermaResult :=
  let ST_K := ST_C.add (NpVal.fin 273.15)
  let Ta_K := Ta_C.add (NpVal.fin 273.15)
  let Ea_Pa := verma_Ea_Pa RH Ta_K
  let albedo2 := albedo.clip01
  let SWout := (SWin.mul albedo2).clipLower0
  let SWnet := (SWin.sub SWout).clipLower0
  let atmospheric_emissivity := brutsaert_atmospheric_emissivity Ea_Pa Ta_K
  let LWin := incoming_longwave_radiation atmospheric_emissivity Ta_K cloud_mask
  let emissivity2 := emissivity.clip01
  let LWout := outgoing_longwave_radiation emissivity2 ST_K
  let LWnet := LWin.sub LWout
  let Rn := (SWnet.add LWnet).clipLower0
  ⟨SWout, LWin, LWout, Rn⟩

/-! ## `verma_net_radiation/daily_Rn_integration_verma.py` -/

/-- A numeric field: a scalar or a one-dimensional homogeneous array.
Operations broadcast elementwise, mirroring numpy. -/
inductive NpField
| scalar (v : NpVal)
| arr (vs : List NpVal)

/-- Elementwise binary broadcast over fields (numpy broadcasting for
matching-shape or scalar operands). -/
def NpField.map2 (f : NpVal → NpVal → NpVal) : NpField → NpField → NpField
| .scalar a, .scalar b => .scalar (f a b)
| .scalar a, .arr bs => .arr (bs.map (fun b => f a b))
| .arr as, .scalar b => .arr (as.map (fun a => f a b))
| .arr as, .arr bs => .arr (List.zipWith f as bs)

/-- Elementwise unary map over a field. -/
def NpField.map (f : NpVal → NpVal) : NpField → NpField
| .scalar a => .scalar (f a)
| .arr as => .arr (as.map f)

/-- `np.full_like(Rn, np.nan)` when the input has a shape, else the scalar
`np.nan` (lines 139-142 of the source). -/
def nanLike : NpField → NpField
| .scalar _ => .scalar .nan
| .arr vs => .arr (vs.map (fun _ => NpVal.nan))

/-- `np.diag` of a two-dimensional result: the entries `m[i][i]`. -/
def diag (m : List (List NpVal)) : List NpVal :=
  m.enum.filterMap (fun p => p.2.get? p.1)

/-- A parsed UTC timestamp, opaque to the core (parsing is an external
collaborator; a malformed string fails in that collaborator, outside the core). -/
abbrev TimeUTC := Nat

/-- A geometry/location collaborator exposing latitude and longitude
(`SpatialGeometry.lat/.lon`, or equivalently `GeoSeries.y/.x`). -/
structure Geometry where
  lat : NpField
  lon : NpField

/-- Result shape of the external solar-hour calculator: scalar,
one-dimensional, or the two-dimensional broadcast artifact the integrator
must compensate for by taking the diagonal. -/
inductive HourResult
| scalarR (v : NpVal)
| oneD (l : List NpVal)
| twoD (m : List (List NpVal))

/-- The external solar collaborators consumed by the daily integrator
(`solar_apparent_time` and `sun_angles` packages), abstracted as functions. -/
structure SolarCalculators where
  calculate_solar_day_of_year :
    TimeUTC → Option Geometry → Option NpField → Option NpField → NpField
  calculate_solar_hour_of_day :
    TimeUTC → Option NpField → Option NpField → HourResult
  SHA_deg_from_DOY_lat : NpField → NpField → NpField
  daylight_from_SHA : NpField → NpField
  sunrise_from_SHA : NpField → NpField

/-- Hour-of-day resolution (lines 111-126 of the source): if not supplied and
a timestamp is available, call the external solar-hour calculator (with
`geometry=None`, as the source does) and, if the result is two-dimensional,
extract the diagonal as the per-observation series. -/
def resolveHourOfDay (sc : SolarCalculators) (time_UTC : Option TimeUTC)
    (hour_of_day : Option NpField) (lat lon : Option NpField) : Option NpField :=
  match hour_of_day, time_UTC with
  | none, some t =>
      some (match sc.calculate_solar_hour_of_day t lat lon with
        | .scalarR v => NpField.scalar v
        | .oneD l => NpField.arr l
        | .twoD m => NpField.arr (diag m))
  | h, _ => h

/-- The optional-input resolution chain (lines 71-134 of the source),
returning the resolved trio (hour-of-day, sunrise hour, daylight hours).
Latitude/longitude fall back to the geometry object; day-of-year falls back
to the external solar-day calculator; sunrise and daylight hours fall back
to the solar-hour-angle route when day-of-year and latitude are available
(the source computes the hour angle under the combined guard
`daylight_hours is None or sunrise_hour is None`, then fills each missing
one; filling each missing one whenever day-of-year and latitude are
available is the same assignment). -/
def resolveTrio (sc : SolarCalculators)
    (time_UTC : Option TimeUTC) (geometry : Option Geometry)
    (hour_of_day day_of_year lat lon sunrise_hour daylight_hours : Option NpField) :
    Option NpField × Option NpField × Option NpField :=
  let lat := match lat, geometry with
    | none, some g => some g.lat
    | l, _ => l
  let lon := match lon, geometry with
    | none, some g => some g.lon
    | l, _ => l
  let day_of_year := match day_of_year, time_UTC with
    | none, some t => some (sc.calculate_solar_day_of_year t geometry lat lon)
    | d, _ => d
  let hour_of_day := resolveHourOfDay sc time_UTC hour_of_day lat lon
  let sha := match day_of_year, lat with
    | some d, some la => some (sc.SHA_deg_from_DOY_lat d la)
    | _, _ => none
  let daylight_hours := match daylight_hours, sha with
    | none, some s => some (sc.daylight_from_SHA s)
    | d, _ => d
  let sunrise_hour := match sunrise_hour, sha with
    | none, some s => some (sc.sunrise_from_SHA s)
    | s, _ => s
  (hour_of_day, sunrise_hour, daylight_hours)

/-- The per-element array-path computation (lines 147-158 of the source):
`denominator = pi*sin(pi*(hour-sunrise)/daylight)` is already evaluated;
elements where it is `<= 0`, NaN or infinite are overwritten with NaN,
others get `1.6 * Rn / denominator`. -/
noncomputable def Rn_daily_element (denom Rn : NpVal) : NpVal :=
  NpVal.where ((denom.le (NpVal.fin 0) || denom.isnan) || denom.isinf)
    NpVal.nan (((NpVal.fin 1.6).mul Rn).div denom)

/-- The whole-value scalar-path computation (lines 159-164 of the source):
the same mask as the array path, as a Python `if`. -/
noncomputable def Rn_daily_scalar_branch (denom Rn : NpVal) : NpVal :=
  if (denom.le (NpVal.fin 0) || denom.isnan) || denom.isinf then NpVal.nan
  else ((NpVal.fin 1.6).mul Rn).div denom

/-- The denominator field `np.pi * np.sin(np.pi * (hour_of_day - sunrise_hour)
/ daylight_hours)` (line 147 of the source). -/
noncomputable def denominatorField (h s d : NpField) : NpField :=
  NpField.map2 NpVal.mul (NpField.scalar (NpVal.fin π))
    (NpField.map NpVal.sin
      (NpField.map2 NpVal.div
        (NpField.map2 NpVal.mul (NpField.scalar (NpVal.fin π)) (NpField.map2 NpVal.sub h s))
        d))

/-- Result of daily integration: the value together with the number of
warnings emitted during the call. -/
structure DailyResult where
  value : NpField
  warning_count : Nat

/-- The final stage of `daily_Rn_integration_verma` (lines 136-166): if the
resolved trio is incomplete, warn once and return a NaN result shaped like
the instantaneous input; otherwise compute the masked sinusoidal upscaling. -/
noncomputable def integrateTrio
    (trio : Option NpField × Option NpField × Option NpField) (Rn_Wm2 : NpField) :
    DailyResult :=
  match trio with
  | (some h, some s, some d) =>
      ⟨NpField.map2 Rn_daily_element (denominatorField h s d) Rn_Wm2, 0⟩
  | _ => ⟨nanLike Rn_Wm2, 1⟩

/-- `daily_Rn_integration_verma` from the source: resolve the optional solar
geometry, then integrate. External collaborators are passed explicitly. -/
noncomputable def daily_Rn_integration_verma (sc : SolarCalculators)
    (Rn_Wm2 : NpField) (time_UTC : Option TimeUTC) (geometry : Option Geometry)
    (hour_of_day day_of_year lat lon sunrise_hour daylight_hours : Option NpField) :
    DailyResult :=
  integrateTrio
    (resolveTrio sc time_UTC geometry hour_of_day day_of_year lat lon
      sunrise_hour daylight_hours) Rn_Wm2

/-- A concrete set of external calculators, for evaluating the integrator at
closed inputs where the external values are irrelevant. -/
def constCalculators : SolarCalculators where
  calculate_solar_day_of_year := fun _ _ _ _ => NpField.scalar (NpVal.fin 1)
  calculate_solar_hour_of_day := fun _ _ _ => HourResult.scalarR (NpVal.fin 0)
  SHA_deg_from_DOY_lat := fun _ _ => NpField.scalar (NpVal.fin 0)
  daylight_from_SHA := fun f => f
  sunrise_from_SHA := fun f => f

/-! ## Evaluation lemmas for the scalar operations -/

@[simp] theorem NpVal.neg_fin (x : ℝ) : (NpVal.fin x).neg = .fin (-x) := rfl

@[simp] theorem NpVal.neg_nan : NpVal.nan.neg = .nan := rfl

@[simp] theorem NpVal.add_fin (x y : ℝ) :
    (NpVal.fin x).add (.fin y) = .fin (x + y) := rfl

@[simp] theorem NpVal.add_nan_left (v : NpVal) : NpVal.nan.add v = .nan := by
  cases v <;> rfl

@[simp] theorem NpVal.add_nan_right (v : NpVal) : v.add .nan = .nan := by
  cases v <;> rfl

@[simp] theorem NpVal.sub_fin (x y : ℝ) :
    (NpVal.fin x).sub (.fin y) = .fin (x - y) := rfl

@[simp] theorem NpVal.sub_nan_left (v : NpVal) : NpVal.nan.sub v = .nan := by
  cases v <;> rfl

@[simp] theorem NpVal.sub_nan_right (v : NpVal) : v.sub .nan = .nan := by
  cases v <;> rfl

@[simp] theorem NpVal.mul_fin (x y : ℝ) :
    (NpVal.fin x).mul (.fin y) = .fin (x * y) := rfl

@[simp] theorem NpVal.mul_nan_left (v : NpVal) : NpVal.nan.mul v = .nan := by
  cases v <;> rfl

@[simp] theorem NpVal.mul_nan_right (v : NpVal) : v.mul .nan = .nan := by
  cases v <;> rfl

@[simp] theorem NpVal.div_fin (x y : ℝ) (h : y ≠ 0) :
    (NpVal.fin x).div (.fin y) = .fin (x / y) := by
  simp [NpVal.div, h]

@[simp] theorem NpVal.div_nan_left (v : NpVal) : NpVal.nan.div v = .nan := by
  cases v <;> rfl

@[simp] theorem NpVal.div_nan_right (v : NpVal) : v.div .nan = .nan := by
  cases v <;> rfl

@[simp] theorem NpVal.sqrt_fin (x : ℝ) (h : 0 ≤ x) :
    (NpVal.fin x).sqrt = .fin (Real.sqrt x) := by
  simp [NpVal.sqrt, h]

@[simp] theorem NpVal.sin_fin (x : ℝ) : (NpVal.fin x).sin = .fin (Real.sin x) := rfl

@[simp] theorem NpVal.pow10_fin (x : ℝ) :
    (NpVal.fin x).pow10 = .fin ((10 : ℝ) ^ x) := rfl

@[simp] theorem NpVal.pow4_fin (x : ℝ) :
    (NpVal.fin x).pow4 = .fin (x ^ (4 : ℕ)) := rfl

@[simp] theorem NpVal.pow4_nan : NpVal.nan.pow4 = .nan := rfl

@[simp] theorem NpVal.le_fin (x y : ℝ) :
    (NpVal.fin x).le (.fin y) = decide (x ≤ y) := rfl

@[simp] theorem NpVal.lt_fin (x y : ℝ) :
    (NpVal.fin x).lt (.fin y) = decide (x < y) := rfl

@[simp] theorem NpVal.ge_fin (x y : ℝ) :
    (NpVal.fin x).ge (.fin y) = decide (y ≤ x) := rfl

@[simp] theorem NpVal.ge_nan_left (v : NpVal) : NpVal.nan.ge v = false := by
  cases v <;> rfl

@[simp] theorem NpVal.le_nan_right (v : NpVal) : v.le .nan = false := by
  cases v <;> rfl

@[simp] theorem NpVal.isnan_fin (x : ℝ) : (NpVal.fin x).isnan = false := rfl

@[simp] theorem NpVal.isnan_nan : NpVal.nan.isnan = true := rfl

@[simp] theorem NpVal.isinf_fin (x : ℝ) : (NpVal.fin x).isinf = false := rfl

@[simp] theorem NpVal.isinf_nan : NpVal.nan.isinf = false := rfl

@[simp] theorem NpVal.vmax_fin (x y : ℝ) :
    (NpVal.fin x).vmax (.fin y) = .fin (max x y) := rfl

@[simp] theorem NpVal.vmin_fin (x y : ℝ) :
    (NpVal.fin x).vmin (.fin y) = .fin (min x y) := rfl

@[simp] theorem NpVal.clip01_fin (x : ℝ) :
    (NpVal.fin x).clip01 = .fin (min (max x 0) 1) := rfl

@[simp] theorem NpVal.clip01_nan : NpVal.nan.clip01 = .nan := rfl

@[simp] theorem NpVal.clipLower0_fin (x : ℝ) :
    (NpVal.fin x).clipLower0 = .fin (max x 0) := rfl

@[simp] theorem NpVal.clipLower0_nan : NpVal.nan.clipLower0 = .nan := rfl

@[simp] theorem NpVal.where_true (a b : NpVal) : NpVal.where true a b = a := rfl

@[simp] theorem NpVal.where_false (a b : NpVal) : NpVal.where false a b = b := rfl

/-- The nonnegative clamp yields NaN or a value that compares `>= 0`. -/
theorem NpVal.clipLower0_nan_or_nonneg (v : NpVal) :
    v.clipLower0 = .nan ∨ (v.clipLower0).ge (.fin 0) = true := by
  cases v with
  | fin x =>
      right
      simp [NpVal.clipLower0, NpVal.ge, NpVal.le]
  | nan => left; rfl
  | pinf => right; rfl
  | ninf => right; simp [NpVal.clipLower0, NpVal.vmax, NpVal.ge, NpVal.le]

/-- A value strictly below zero does not compare `>= 0` (numpy booleans). -/
theorem NpVal.lt_zero_not_ge_zero (v : NpVal) (h : v.lt (.fin 0) = true) :
    v.ge (.fin 0) = false := by
  cases v with
  | fin x =>
      simp only [NpVal.lt_fin, decide_eq_true_eq] at h
      simp [NpVal.ge, NpVal.le, not_le.mpr h]
  | nan => simp [NpVal.lt] at h
  | pinf => simp [NpVal.lt] at h
  | ninf => rfl

/-- C1: the scalar path `old_eta2` and the array path `new_eta2` agree on
every pair of inputs; where the square-root argument is negative both return
NaN (neither raises nor produces a complex number — both are total functions
into `NpVal`). -/
theorem C1_old_new_eta2_equiv (Ea_Pa Ta_K : NpVal) :
    old_eta2 Ea_Pa Ta_K = new_eta2 Ea_Pa Ta_K ∧
    ((eta2_arg_of Ea_Pa Ta_K).lt (.fin 0) = true →
      old_eta2 Ea_Pa Ta_K = .nan ∧ new_eta2 Ea_Pa Ta_K = .nan) := by
  constructor
  · rfl
  · intro h
    have hge := NpVal.lt_zero_not_ge_zero _ h
    have hold : old_eta2 Ea_Pa Ta_K =
        (if (eta2_arg_of Ea_Pa Ta_K).ge (.fin 0) then
          (eta2_arg_of Ea_Pa Ta_K).sqrt.neg else NpVal.nan) := rfl
    have hnew : new_eta2 Ea_Pa Ta_K =
        NpVal.where ((eta2_arg_of Ea_Pa Ta_K).ge (.fin 0))
          (eta2_arg_of Ea_Pa Ta_K).sqrt.neg NpVal.nan := rfl
    rw [hold, hnew, hge]
    exact ⟨rfl, rfl⟩

/-- Witness for C1 at `Ea_Pa = -1000`, `Ta_K = 1`, where the argument is
`1.2 + 3*0.465*(-1000)/1 < 0`: both paths return NaN. -/
theorem C1_old_new_eta2_equiv_witness :
    (eta2_arg_of (.fin (-1000)) (.fin 1)).lt (.fin 0) = true ∧
    old_eta2 (.fin (-1000)) (.fin 1) = .nan ∧
    new_eta2 (.fin (-1000)) (.fin 1) = .nan := by
  have h : (eta2_arg_of (.fin (-1000)) (.fin 1)).lt (.fin 0) = true := by
    rw [eta2_arg_of, NpVal.mul_fin, NpVal.div_fin _ _ (by norm_num : (1:ℝ) ≠ 0),
      NpVal.mul_fin, NpVal.add_fin, NpVal.lt_fin, decide_eq_true_eq]
    norm_num
  exact ⟨h, (C1_old_new_eta2_equiv (.fin (-1000)) (.fin 1)).2 h⟩

/-- C2: wherever the argument `1.2 + 3*(0.465*Ea_Pa/Ta_K)` is a nonnegative
real, the array emissivity path returns `-sqrt(arg)`; wherever it is a
negative real it returns NaN. The function is total (never raises) and its
codomain `NpVal` has no complex values. -/
theorem C2_new_eta2_formula (Ea_Pa Ta_K : NpVal) (a : ℝ)
    (h : eta2_arg_of Ea_Pa Ta_K = .fin a) :
    (0 ≤ a → new_eta2 Ea_Pa Ta_K = .fin (-Real.sqrt a)) ∧
    (a < 0 → new_eta2 Ea_Pa Ta_K = .nan) := by
  have hnew : new_eta2 Ea_Pa Ta_K =
      NpVal.where ((eta2_arg_of Ea_Pa Ta_K).ge (.fin 0))
        (eta2_arg_of Ea_Pa Ta_K).sqrt.neg NpVal.nan := rfl
  rw [hnew, h]
  constructor
  · intro h0
    simp [h0, NpVal.sqrt]
  · intro hneg
    simp [not_le.mpr hneg]

/-- Witness for C2 at `Ea_Pa = 0`, `Ta_K = 300`: the argument is `1.2 ≥ 0`
and the result is `-sqrt(1.2)`. -/
theorem C2_new_eta2_formula_witness :
    eta2_arg_of (.fin 0) (.fin 300) = .fin 1.2 ∧
    new_eta2 (.fin 0) (.fin 300) = .fin (-Real.sqrt 1.2) := by
  have h : eta2_arg_of (.fin 0) (.fin 300) = .fin 1.2 := by
    rw [eta2_arg_of, NpVal.mul_fin, NpVal.div_fin _ _ (by norm_num : (300:ℝ) ≠ 0),
      NpVal.mul_fin, NpVal.add_fin]
    norm_num
  exact ⟨h, (C2_new_eta2_formula (.fin 0) (.fin 300) 1.2 h).1 (by norm_num)⟩

/-! ## Helper lemmas about `model.py` -/

theorem brutsaert_eq (Ea_Pa Ta_K : NpVal) :
    brutsaert_atmospheric_emissivity Ea_Pa Ta_K =
      NpVal.where ((eta2_arg_of Ea_Pa Ta_K).ge (.fin 0))
        (eta2_arg_of Ea_Pa Ta_K).sqrt.neg .nan := rfl

theorem eta2_arg_of_fin (Ea Ta : ℝ) (hTa : Ta ≠ 0) :
    eta2_arg_of (.fin Ea) (.fin Ta) = .fin (1.2 + 3 * (0.465 * Ea / Ta)) := by
  rw [eta2_arg_of, NpVal.mul_fin, NpVal.div_fin _ _ hTa, NpVal.mul_fin, NpVal.add_fin]

theorem brutsaert_fin_neg (Ea Ta : ℝ) (hTa : Ta ≠ 0)
    (h : 1.2 + 3 * (0.465 * Ea / Ta) < 0) :
    brutsaert_atmospheric_emissivity (.fin Ea) (.fin Ta) = .nan := by
  rw [brutsaert_eq, eta2_arg_of_fin Ea Ta hTa]
  simp [not_le.mpr h]

theorem brutsaert_fin_nonneg (Ea Ta : ℝ) (hTa : Ta ≠ 0)
    (h : 0 ≤ 1.2 + 3 * (0.465 * Ea / Ta)) :
    brutsaert_atmospheric_emissivity (.fin Ea) (.fin Ta) =
      .fin (-Real.sqrt (1.2 + 3 * (0.465 * Ea / Ta))) := by
  rw [brutsaert_eq, eta2_arg_of_fin Ea Ta hTa]
  simp [h, NpVal.sqrt]

theorem verma_Ea_Pa_fin (r t : ℝ) (h : t - 35.85 ≠ 0) :
    verma_Ea_Pa (.fin r) (.fin t) =
      .fin (r * 0.6113 * (10 : ℝ) ^ (7.5 * (t - 273.15) / (t - 35.85)) * 1000) := by
  have hd : ((NpVal.fin (7.5 * (t - 273.15))).div (NpVal.fin (t - 35.85))) =
      NpVal.fin (7.5 * (t - 273.15) / (t - 35.85)) := NpVal.div_fin _ _ h
  rw [verma_Ea_Pa]
  simp only [NpVal.sub_fin, NpVal.mul_fin, hd, NpVal.pow10_fin]

theorem incoming_longwave_none_nan (Ta_K : NpVal) :
    incoming_longwave_radiation .nan Ta_K none = .nan := by
  simp [incoming_longwave_radiation]

theorem incoming_longwave_none_fin (e t : ℝ) :
    incoming_longwave_radiation (.fin e) (.fin t) none =
      .fin (e * STEFAN_BOLTZMAN_CONSTANT * t ^ (4 : ℕ)) := rfl

theorem outgoing_longwave_fin (e t : ℝ) :
    outgoing_longwave_radiation (.fin e) (.fin t) =
      .fin (e * STEFAN_BOLTZMAN_CONSTANT * t ^ (4 : ℕ)) := rfl

/-- The four projections of `verma_net_radiation`, written out. -/
theorem verma_net_radiation_parts
    (ST_C emissivity albedo SWin Ta_C RH : NpVal) (cm : Option Bool) :
    (verma_net_radiation ST_C emissivity albedo SWin Ta_C RH cm).SWout =
        (SWin.mul albedo.clip01).clipLower0 ∧
    (verma_net_radiation ST_C emissivity albedo SWin Ta_C RH cm).LWin =
        incoming_longwave_radiation
          (brutsaert_atmospheric_emissivity
            (verma_Ea_Pa RH (Ta_C.add (.fin 273.15))) (Ta_C.add (.fin 273.15)))
          (Ta_C.add (.fin 273.15)) cm ∧
    (verma_net_radiation ST_C emissivity albedo SWin Ta_C RH cm).LWout =
        outgoing_longwave_radiation emissivity.clip01 (ST_C.add (.fin 273.15)) ∧
    (verma_net_radiation ST_C emissivity albedo SWin Ta_C RH cm).Rn =
        (((SWin.sub ((SWin.mul albedo.clip01).clipLower0)).clipLower0).add
          ((incoming_longwave_radiation
            (brutsaert_atmospheric_emissivity
              (verma_Ea_Pa RH (Ta_C.add (.fin 273.15))) (Ta_C.add (.fin 273.15)))
            (Ta_C.add (.fin 273.15)) cm).sub
           (outgoing_longwave_radiation emissivity.clip01
             (ST_C.add (.fin 273.15))))).clipLower0 :=
  ⟨rfl, rfl, rfl, rfl⟩

/-- C8: with any albedo at most 1 and any nonnegative incoming shortwave, the
outgoing shortwave of `verma_net_radiation` is at most the incoming shortwave. -/
theorem C8_SWout_le_SWin (ST_C emissivity Ta_C RH : NpVal) (cm : Option Bool)
    (a s : ℝ) (ha : a ≤ 1) (hs : 0 ≤ s) :
    ((verma_net_radiation ST_C emissivity (.fin a) (.fin s) Ta_C RH cm).SWout).le
      (.fin s) = true := by
  rw [(verma_net_radiation_parts ST_C emissivity (.fin a) (.fin s) Ta_C RH cm).1]
  rw [NpVal.clip01_fin, NpVal.mul_fin, NpVal.clipLower0_fin, NpVal.le_fin,
    decide_eq_true_eq]
  refine max_le ?_ hs
  calc s * min (max a 0) 1 ≤ s * 1 :=
        mul_le_mul_of_nonneg_left (min_le_right _ _) hs
    _ = s := mul_one s

/-- Witness for C8 at albedo 0.5 and incoming shortwave 100. -/
theorem C8_SWout_le_SWin_witness :
    ((0.5 : ℝ) ≤ 1 ∧ (0 : ℝ) ≤ 100) ∧
    ((verma_net_radiation (.fin 25) (.fin 0.9) (.fin 0.5) (.fin 100) (.fin 20)
        (.fin 0.5) none).SWout).le (.fin 100) = true :=
  ⟨⟨by norm_num, by norm_num⟩,
    C8_SWout_le_SWin (.fin 25) (.fin 0.9) (.fin 20) (.fin 0.5) none 0.5 100
      (by norm_num) (by norm_num)⟩

/-- C7 (amended): the net radiation output of `verma_net_radiation` is never a
value comparing below zero: for every input it is either NaN (NaN propagation
through the longwave terms defeats the clamp) or compares `>= 0`; the function
is total, so no exception is raised. -/
theorem C7_Rn_nan_or_nonneg
    (ST_C emissivity albedo SWin Ta_C RH : NpVal) (cm : Option Bool) :
    (verma_net_radiation ST_C emissivity albedo SWin Ta_C RH cm).Rn = .nan ∨
    ((verma_net_radiation ST_C emissivity albedo SWin Ta_C RH cm).Rn).ge
      (.fin 0) = true := by
  rw [(verma_net_radiation_parts ST_C emissivity albedo SWin Ta_C RH cm).2.2.2]
  exact NpVal.clipLower0_nan_or_nonneg _

/-- C7 counterexample: with surface temperature 15 C, emissivity 0.9, albedo
0.2, incoming shortwave 100, air temperature 0 C and relative humidity -1 (an
out-of-range raw input the claim explicitly covers), the vapor pressure is
-611.3 Pa, the emissivity argument is negative, and the returned net radiation
is NaN, which does not compare `>= 0`; so `Rn >= 0` fails for this input. -/
theorem C7_Rn_counterexample :
    (verma_net_radiation (.fin 15) (.fin 0.9) (.fin 0.2) (.fin 100) (.fin 0)
      (.fin (-1)) none).Rn = .nan ∧
    ((verma_net_radiation (.fin 15) (.fin 0.9) (.fin 0.2) (.fin 100) (.fin 0)
      (.fin (-1)) none).Rn).ge (.fin 0) = false := by
  have hTa : (NpVal.fin (0:ℝ)).add (.fin 273.15) = .fin 273.15 := by
    rw [NpVal.add_fin]; norm_num
  have hEa : verma_Ea_Pa (.fin (-1)) (.fin 273.15) = .fin (-611.3) := by
    rw [verma_Ea_Pa_fin (-1) 273.15 (by norm_num)]
    have he : (7.5 * ((273.15:ℝ) - 273.15) / (273.15 - 35.85)) = 0 := by norm_num
    rw [he, Real.rpow_zero]
    norm_num
  have hbr : brutsaert_atmospheric_emissivity (.fin (-611.3)) (.fin 273.15) =
      .nan := by
    refine brutsaert_fin_neg _ _ (by norm_num) ?_
    norm_num
  have hRn : (verma_net_radiation (.fin 15) (.fin 0.9) (.fin 0.2) (.fin 100)
      (.fin 0) (.fin (-1)) none).Rn = .nan := by
    rw [(verma_net_radiation_parts (.fin 15) (.fin 0.9) (.fin 0.2) (.fin 100)
      (.fin 0) (.fin (-1)) none).2.2.2, hTa, hEa, hbr,
      incoming_longwave_none_nan]
    simp
  exact ⟨hRn, by rw [hRn]; exact NpVal.ge_nan_left _⟩

/-- C10: the [0,1] clamps pass NaN through: a NaN raw albedo leaves the
clamped albedo, the outgoing shortwave and the net radiation NaN; a NaN raw
surface emissivity leaves the clamped emissivity, the outgoing longwave and
the net radiation NaN; on non-NaN (finite) raw input the clamp does land in
[0,1]. -/
theorem C10_nan_through_clamps :
    (NpVal.nan.clip01 = .nan) ∧
    (∀ (ST_C em SWin Ta_C RH : NpVal) (cm : Option Bool),
      (verma_net_radiation ST_C em .nan SWin Ta_C RH cm).SWout = .nan ∧
      (verma_net_radiation ST_C em .nan SWin Ta_C RH cm).Rn = .nan) ∧
    (∀ (ST_C al SWin Ta_C RH : NpVal) (cm : Option Bool),
      (verma_net_radiation ST_C .nan al SWin Ta_C RH cm).LWout = .nan ∧
      (verma_net_radiation ST_C .nan al SWin Ta_C RH cm).Rn = .nan) ∧
    (∀ a : ℝ, (NpVal.fin a).clip01 = .fin (min (max a 0) 1) ∧
      0 ≤ min (max a 0) 1 ∧ min (max a 0) 1 ≤ 1) := by
  refine ⟨rfl, ?_, ?_, ?_⟩
  · intro ST_C em SWin Ta_C RH cm
    obtain ⟨hSW, -, -, hRn⟩ :=
      verma_net_radiation_parts ST_C em .nan SWin Ta_C RH cm
    have h1 : (SWin.mul NpVal.nan.clip01).clipLower0 = .nan := by simp
    exact ⟨by rw [hSW, h1], by rw [hRn, h1]; simp⟩
  · intro ST_C al SWin Ta_C RH cm
    obtain ⟨-, -, hLW, hRn⟩ :=
      verma_net_radiation_parts ST_C .nan al SWin Ta_C RH cm
    have h1 : outgoing_longwave_radiation NpVal.nan.clip01 (ST_C.add (.fin 273.15)) =
        .nan := by simp [outgoing_longwave_radiation]
    exact ⟨by rw [hLW, h1], by rw [hRn, h1]; simp⟩
  · intro a
    refine ⟨NpVal.clip01_fin a, le_min (le_max_right a 0) zero_le_one,
      min_le_right _ _⟩

/-- C6: outgoing shortwave is `clip(SWin * clip(albedo,0,1), lower=0)` in
general; at the spec's end-to-end point (ST 25 C, emissivity 0.98, albedo 0.2,
incoming shortwave 600, air 20 C, relative humidity 0.5, no cloud mask) the
outputs satisfy SWout = 120, Rn compares `>= 0`, and LWout equals
`0.98 * 5.67036713e-8 * 298.15^4` exactly (hence within 1e-6 relative error). -/
theorem C6_net_radiation_end_to_end :
    (∀ (ST_C em al sw ta rh : NpVal) (cm : Option Bool),
      (verma_net_radiation ST_C em al sw ta rh cm).SWout =
        (sw.mul al.clip01).clipLower0) ∧
    (verma_net_radiation (.fin 25) (.fin 0.98) (.fin 0.2) (.fin 600) (.fin 20)
      (.fin 0.5) none).SWout = .fin 120 ∧
    ((verma_net_radiation (.fin 25) (.fin 0.98) (.fin 0.2) (.fin 600) (.fin 20)
      (.fin 0.5) none).Rn).ge (.fin 0) = true ∧
    (verma_net_radiation (.fin 25) (.fin 0.98) (.fin 0.2) (.fin 600) (.fin 20)
      (.fin 0.5) none).LWout =
        .fin (0.98 * 5.67036713e-8 * 298.15 ^ (4 : ℕ)) := by
  obtain ⟨hSW, hLWin, hLWout, hRn⟩ := verma_net_radiation_parts (.fin 25)
    (.fin 0.98) (.fin 0.2) (.fin 600) (.fin 20) (.fin 0.5) none
  have hTa : (NpVal.fin (20 : ℝ)).add (.fin 273.15) = .fin 293.15 := by
    rw [NpVal.add_fin]; norm_num
  have hST : (NpVal.fin (25 : ℝ)).add (.fin 273.15) = .fin 298.15 := by
    rw [NpVal.add_fin]; norm_num
  have halb : (NpVal.fin (0.2 : ℝ)).clip01 = .fin 0.2 := by
    rw [NpVal.clip01_fin]; norm_num [min_def, max_def]
  have hem : (NpVal.fin (0.98 : ℝ)).clip01 = .fin 0.98 := by
    rw [NpVal.clip01_fin]; norm_num [min_def, max_def]
  have hEa : verma_Ea_Pa (.fin 0.5) (.fin 293.15) =
      .fin (0.5 * 0.6113 *
        (10 : ℝ) ^ ((7.5 * (293.15 - 273.15) / (293.15 - 35.85) : ℝ)) * 1000) :=
    verma_Ea_Pa_fin 0.5 293.15 (by norm_num)
  have harg : (0 : ℝ) ≤ 1.2 + 3 * (0.465 *
      (0.5 * 0.6113 * (10 : ℝ) ^ ((7.5 * (293.15 - 273.15) / (293.15 - 35.85) : ℝ))
        * 1000) / 293.15) := by positivity
  have hbr := brutsaert_fin_nonneg _ 293.15 (by norm_num) harg
  refine ⟨fun ST_C em al sw ta rh cm =>
      (verma_net_radiation_parts ST_C em al sw ta rh cm).1, ?_, ?_, ?_⟩
  · rw [hSW, halb, NpVal.mul_fin, NpVal.clipLower0_fin]
    norm_num [max_def]
  · rw [hRn, hTa, hEa, hbr, hST, hem, halb, incoming_longwave_none_fin,
      outgoing_longwave_fin]
    simp only [NpVal.mul_fin, NpVal.clipLower0_fin, NpVal.sub_fin,
      NpVal.add_fin, NpVal.ge_fin, decide_eq_true_eq]
    exact le_max_right _ _
  · rw [hLWout, hem, hST, outgoing_longwave_fin, STEFAN_BOLTZMAN_CONSTANT]

/-! ## Helper lemmas about the daily integrator -/

/-- The scalar value of the denominator
`pi * sin(pi * (hour_of_day - sunrise_hour) / daylight_hours)`. -/
noncomputable def denomNp (h s d : NpVal) : NpVal :=
  (NpVal.fin π).mul ((((NpVal.fin π).mul (h.sub s)).div d).sin)

theorem denominatorField_scalar (h s d : NpVal) :
    denominatorField (.scalar h) (.scalar s) (.scalar d) =
      .scalar (denomNp h s d) := rfl

/-- A masked element (denominator `<= 0`, NaN or infinite) becomes NaN. -/
theorem Rn_daily_element_masked (den r : NpVal)
    (h : ((den.le (.fin 0) || den.isnan) || den.isinf) = true) :
    Rn_daily_element den r = .nan := by
  rw [Rn_daily_element, h, NpVal.where_true]

/-- The trio-supplied scalar call reduces to one masked-element computation. -/
theorem daily_scalar_trio_value (sc : SolarCalculators) (r h s d : NpVal) :
    (daily_Rn_integration_verma sc (.scalar r) none none (some (.scalar h))
      none none none (some (.scalar s)) (some (.scalar d))).value =
      .scalar (Rn_daily_element (denomNp h s d) r) := rfl

/-- C4: elements with denominator `<= 0`, NaN or infinite are overwritten with
NaN; the array-path computation and the scalar-path `if` are the same
function of (denominator, flux); through the full integrator a masked scalar
denominator yields a NaN output (totally, with no exception). -/
theorem C4_denominator_masking :
    (∀ den r : NpVal, ((den.le (.fin 0) || den.isnan) || den.isinf) = true →
      Rn_daily_element den r = .nan) ∧
    (∀ den r : NpVal, Rn_daily_element den r = Rn_daily_scalar_branch den r) ∧
    (∀ (sc : SolarCalculators) (r h s d : NpVal),
      (((denomNp h s d).le (.fin 0) || (denomNp h s d).isnan) ||
        (denomNp h s d).isinf) = true →
      (daily_Rn_integration_verma sc (.scalar r) none none (some (.scalar h))
        none none none (some (.scalar s)) (some (.scalar d))).value =
        .scalar .nan) := by
  refine ⟨Rn_daily_element_masked, ?_, ?_⟩
  · intro den r
    rfl
  · intro sc r h s d hmask
    rw [daily_scalar_trio_value, Rn_daily_element_masked _ _ hmask]

/-- Witness for C4 at hour-of-day 6 = sunrise 6, daylight 12: the denominator
is `pi*sin(0) = 0 <= 0` and the integrator returns a NaN scalar. -/
theorem C4_denominator_masking_witness :
    (((denomNp (.fin 6) (.fin 6) (.fin 12)).le (.fin 0) ||
        (denomNp (.fin 6) (.fin 6) (.fin 12)).isnan) ||
      (denomNp (.fin 6) (.fin 6) (.fin 12)).isinf) = true ∧
    (daily_Rn_integration_verma constCalculators (.scalar (.fin 400)) none none
      (some (.scalar (.fin 6))) none none none (some (.scalar (.fin 6)))
      (some (.scalar (.fin 12)))).value = .scalar .nan := by
  have hden : denomNp (.fin 6) (.fin 6) (.fin 12) = .fin 0 := by
    rw [denomNp, NpVal.sub_fin, NpVal.mul_fin,
      NpVal.div_fin _ _ (by norm_num : (12:ℝ) ≠ 0), NpVal.sin_fin, NpVal.mul_fin]
    norm_num
  have hmask : (((denomNp (.fin 6) (.fin 6) (.fin 12)).le (.fin 0) ||
      (denomNp (.fin 6) (.fin 6) (.fin 12)).isnan) ||
      (denomNp (.fin 6) (.fin 6) (.fin 12)).isinf) = true := by
    rw [hden]
    simp
  exact ⟨hmask, C4_denominator_masking.2.2 constCalculators (.fin 400) (.fin 6)
    (.fin 6) (.fin 12) hmask⟩

/-- C3: whenever the resolution chain yields the full trio (hour-of-day,
sunrise hour, daylight hours) and the scalar denominator is a positive
(finite) real `dv`, the daily flux is `1.6 * Rn / dv` and no warning is
emitted. -/
theorem C3_daily_formula (sc : SolarCalculators) (time_UTC : Option TimeUTC)
    (geometry : Option Geometry)
    (hour_of_day day_of_year lat lon sunrise_hour daylight_hours : Option NpField)
    (h s d : NpVal) (rv dv : ℝ)
    (htrio : resolveTrio sc time_UTC geometry hour_of_day day_of_year lat lon
      sunrise_hour daylight_hours =
      (some (.scalar h), some (.scalar s), some (.scalar d)))
    (hden : denomNp h s d = .fin dv) (hpos : 0 < dv) :
    (daily_Rn_integration_verma sc (.scalar (.fin rv)) time_UTC geometry
      hour_of_day day_of_year lat lon sunrise_hour daylight_hours).value =
      .scalar (.fin (1.6 * rv / dv)) ∧
    (daily_Rn_integration_verma sc (.scalar (.fin rv)) time_UTC geometry
      hour_of_day day_of_year lat lon sunrise_hour
      daylight_hours).warning_count = 0 := by
  rw [daily_Rn_integration_verma, htrio]
  refine ⟨?_, rfl⟩
  have hval : (integrateTrio
      (some (NpField.scalar h), some (NpField.scalar s), some (NpField.scalar d))
      (NpField.scalar (NpVal.fin rv))).value =
      NpField.scalar (Rn_daily_element (denomNp h s d) (.fin rv)) := rfl
  rw [hval, hden, Rn_daily_element]
  have hle : (NpVal.fin dv).le (.fin 0) = false := by
    simp [not_le.mpr hpos]
  rw [hle, NpVal.isnan_fin, NpVal.isinf_fin]
  rw [show ((false || false) || false) = false from rfl, NpVal.where_false,
    NpVal.mul_fin, NpVal.div_fin _ _ (ne_of_gt hpos)]

/-- Witness for C3 at the spec's round-trip point: Rn 400, hour-of-day 12,
sunrise 6, daylight 12; the denominator is `pi` and the result `1.6*400/pi`. -/
theorem C3_daily_formula_witness :
    denomNp (.fin 12) (.fin 6) (.fin 12) = .fin π ∧ 0 < π ∧
    resolveTrio constCalculators none none (some (.scalar (.fin 12))) none none
      none (some (.scalar (.fin 6))) (some (.scalar (.fin 12))) =
      (some (.scalar (.fin 12)), some (.scalar (.fin 6)),
        some (.scalar (.fin 12))) ∧
    (daily_Rn_integration_verma constCalculators (.scalar (.fin 400)) none none
      (some (.scalar (.fin 12))) none none none (some (.scalar (.fin 6)))
      (some (.scalar (.fin 12)))).value = .scalar (.fin (1.6 * 400 / π)) := by
  have hden : denomNp (.fin 12) (.fin 6) (.fin 12) = .fin π := by
    rw [denomNp, NpVal.sub_fin, NpVal.mul_fin,
      NpVal.div_fin _ _ (by norm_num : (12:ℝ) ≠ 0), NpVal.sin_fin, NpVal.mul_fin]
    rw [show π * ((12:ℝ) - 6) / 12 = π / 2 by rw [show ((12:ℝ) - 6) = 6 by norm_num]; ring]
    rw [Real.sin_pi_div_two, mul_one]
  exact ⟨hden, Real.pi_pos, rfl,
    (C3_daily_formula constCalculators none none (some (.scalar (.fin 12)))
      none none none (some (.scalar (.fin 6))) (some (.scalar (.fin 12)))
      (.fin 12) (.fin 6) (.fin 12) 400 π rfl hden Real.pi_pos).1⟩

/-- C5: if after the whole resolution chain any of hour-of-day, sunrise hour
or daylight hours is still unresolved, the integrator (a total function, so
no exception) returns the NaN-filled value of the same shape as the
instantaneous flux input — a NaN array for an array input, a scalar NaN for a
scalar input — together with exactly one warning. -/
theorem C5_missing_geometry_nan (sc : SolarCalculators) (Rn_Wm2 : NpField)
    (time_UTC : Option TimeUTC) (geometry : Option Geometry)
    (hour_of_day day_of_year lat lon sunrise_hour daylight_hours : Option NpField)
    (hmiss :
      (resolveTrio sc time_UTC geometry hour_of_day day_of_year lat lon
        sunrise_hour daylight_hours).1 = none ∨
      (resolveTrio sc time_UTC geometry hour_of_day day_of_year lat lon
        sunrise_hour daylight_hours).2.1 = none ∨
      (resolveTrio sc time_UTC geometry hour_of_day day_of_year lat lon
        sunrise_hour daylight_hours).2.2 = none) :
    daily_Rn_integration_verma sc Rn_Wm2 time_UTC geometry hour_of_day
        day_of_year lat lon sunrise_hour daylight_hours =
      ⟨nanLike Rn_Wm2, 1⟩ ∧
    (∀ v, nanLike (.scalar v) = NpField.scalar .nan) ∧
    (∀ l, nanLike (.arr l) = NpField.arr (l.map (fun _ => NpVal.nan))) := by
  refine ⟨?_, fun v => rfl, fun l => rfl⟩
  rw [daily_Rn_integration_verma]
  rcases htrio : resolveTrio sc time_UTC geometry hour_of_day day_of_year lat
    lon sunrise_hour daylight_hours with ⟨a, bc⟩
  rcases bc with ⟨b, c⟩
  rw [htrio] at hmiss
  rcases hmiss with h1 | h2 | h3
  · simp only at h1
    subst h1
    rcases b with _ | b <;> rcases c with _ | c <;> rfl
  · simp only at h2
    subst h2
    rcases a with _ | a <;> rcases c with _ | c <;> rfl
  · simp only at h3
    subst h3
    rcases a with _ | a <;> rcases b with _ | b <;> rfl

/-- Witness for C5: no time, no geometry, nothing supplied; the resolved trio
is all-`None` and a two-element flux array comes back as two NaNs with one
warning. -/
theorem C5_missing_geometry_nan_witness :
    (resolveTrio constCalculators none none none none none none none none).1 =
      none ∧
    daily_Rn_integration_verma constCalculators
        (.arr [.fin 400, .fin 300]) none none none none none none none none =
      ⟨.arr [.nan, .nan], 1⟩ := by
  refine ⟨rfl, ?_⟩
  have h := (C5_missing_geometry_nan constCalculators
    (.arr [.fin 400, .fin 300]) none none none none none none none none
    (Or.inl rfl)).1
  rw [h]
  rfl

/-- C9: when hour-of-day is derived from the timestamp via the external
solar-hour calculator, a two-dimensional result is replaced by its diagonal
as the per-observation series, while one-dimensional and scalar results are
used unchanged. -/
theorem C9_two_dimensional_diagonal (sc : SolarCalculators) (t : TimeUTC)
    (lat lon : Option NpField) :
    (∀ m, sc.calculate_solar_hour_of_day t lat lon = .twoD m →
      resolveHourOfDay sc (some t) none lat lon = some (NpField.arr (diag m))) ∧
    (∀ l, sc.calculate_solar_hour_of_day t lat lon = .oneD l →
      resolveHourOfDay sc (some t) none lat lon = some (NpField.arr l)) ∧
    (∀ v, sc.calculate_solar_hour_of_day t lat lon = .scalarR v →
      resolveHourOfDay sc (some t) none lat lon = some (NpField.scalar v)) := by
  refine ⟨?_, ?_, ?_⟩ <;> intro x h <;> rw [resolveHourOfDay, h]

/-- External calculators whose solar-hour result is the 2x2 broadcast
artifact `[[1, 2], [3, 4]]`, for witnessing the diagonal extraction. -/
def twoDCalculators : SolarCalculators where
  calculate_solar_day_of_year := fun _ _ _ _ => NpField.scalar (NpVal.fin 1)
  calculate_solar_hour_of_day := fun _ _ _ =>
    HourResult.twoD [[.fin 1, .fin 2], [.fin 3, .fin 4]]
  SHA_deg_from_DOY_lat := fun _ _ => NpField.scalar (NpVal.fin 0)
  daylight_from_SHA := fun f => f
  sunrise_from_SHA := fun f => f

/-- Witness for C9: the 2x2 result `[[1,2],[3,4]]` resolves to its diagonal
`[1, 4]`. -/
theorem C9_two_dimensional_diagonal_witness :
    twoDCalculators.calculate_solar_hour_of_day 0 none none =
      HourResult.twoD [[.fin 1, .fin 2], [.fin 3, .fin 4]] ∧
    resolveHourOfDay twoDCalculators (some 0) none none none =
      some (NpField.arr [.fin 1, .fin 4]) := by
  refine ⟨rfl, ?_⟩
  have h := (C9_two_dimensional_diagonal twoDCalculators 0 none none).1
    [[.fin 1, .fin 2], [.fin 3, .fin 4]] rfl
  rw [h]
  rfl
